import Mathlib

/-!
# cglm mat3 kernel (`include/cglm-mat3.h`)

A shallow embedding of the scalar 3×3 matrix kernel of cglm and a verification
of its specification.

* `vec3` is `float[3]`, `mat3` is `vec3[3]`; `m[col][row]` is column-major
  indexing.  Scalars are taken from an arbitrary type `R` carrying `+` and `*`
  (exact numbers: theorems assume a commutative ring where algebra is needed).
* Every C function is embedded twice, both times statement by statement from
  the source:
  - at value level (`glm_mat3_mul m1 m2 : mat3 R`): inputs are values and the
    out-parameter `dest` is returned, which is the behaviour of a call whose
    `dest` is storage of its own;
  - at store level (`Mem.glm_mat3_mul m1 m2 dest`): parameters are slots of a
    store, every read and write of the C body is performed in order on the
    store, so that parameters naming the same slot alias.
-/

/-- A `vec3`: three scalars, `v[i]` is `v i`. -/
abbrev vec3 (R : Type) := Fin 3 → R

/-- A `mat3`: three column vectors, `m[col][row]` is `m col row`. -/
abbrev mat3 (R : Type) := Fin 3 → vec3 R

section Value

variable {R : Type}

/-- The initializer `GLM_MAT3_IDENTITY_INIT` (and the compound literal
`GLM_MAT3_IDENTITY`). -/
def GLM_MAT3_IDENTITY [Zero R] [One R] : mat3 R :=
  ![![1, 0, 0],
    ![0, 1, 0],
    ![0, 0, 1]]

/-- Value-level `glm_mat3_mul` (scalar path, the `#else` branch): the 18 inputs
are cached in locals, then the 9 entries of `dest` are assigned. -/
def glm_mat3_mul [Add R] [Mul R] (m1 m2 : mat3 R) : mat3 R :=
  let a00 := m1 0 0; let a01 := m1 0 1; let a02 := m1 0 2
  let a10 := m1 1 0; let a11 := m1 1 1; let a12 := m1 1 2
  let a20 := m1 2 0; let a21 := m1 2 1; let a22 := m1 2 2
  let b00 := m2 0 0; let b01 := m2 0 1; let b02 := m2 0 2
  let b10 := m2 1 0; let b11 := m2 1 1; let b12 := m2 1 2
  let b20 := m2 2 0; let b21 := m2 2 1; let b22 := m2 2 2
  ![![a00 * b00 + a10 * b01 + a20 * b02,
      a01 * b00 + a11 * b01 + a21 * b02,
      a02 * b00 + a12 * b01 + a22 * b02],
    ![a00 * b10 + a10 * b11 + a20 * b12,
      a01 * b10 + a11 * b11 + a21 * b12,
      a02 * b10 + a12 * b11 + a22 * b12],
    ![a00 * b20 + a10 * b21 + a20 * b22,
      a01 * b20 + a11 * b21 + a21 * b22,
      a02 * b20 + a12 * b21 + a22 * b22]]

/-- Value-level `glm_mat3_transpose_to`: the 9 assignments to `dest`. -/
def glm_mat3_transpose_to (m : mat3 R) : mat3 R :=
  ![![m 0 0, m 1 0, m 2 0],
    ![m 0 1, m 1 1, m 2 1],
    ![m 0 2, m 1 2, m 2 2]]

/-- Value-level `glm_mat3_transpose`: the six off-diagonal entries go through
`tmp`, the diagonal entries of `m` stay as they are. -/
def glm_mat3_transpose (m : mat3 R) : mat3 R :=
  let tmp01 := m 1 0
  let tmp02 := m 2 0
  let tmp10 := m 0 1
  let tmp12 := m 2 1
  let tmp20 := m 0 2
  let tmp21 := m 1 2
  ![![m 0 0, tmp01, tmp02],
    ![tmp10, m 1 1, tmp12],
    ![tmp20, tmp21, m 2 2]]

/-- Value-level `glm_mat3_mulv`: the 3 assignments to `dest`. -/
def glm_mat3_mulv [Add R] [Mul R] (m : mat3 R) (v : vec3 R) : vec3 R :=
  ![m 0 0 * v 0 + m 1 0 * v 1 + m 2 0 * v 2,
    m 0 1 * v 0 + m 1 1 * v 1 + m 2 1 * v 2,
    m 0 2 * v 0 + m 1 2 * v 1 + m 2 2 * v 2]

end Value

/-! ## Store-level embedding -/

/-- One access of a program to the store: a read or a write of one scalar. -/
inductive Event where
  | readM (p : Nat) (col row : Fin 3)
  | writeM (p : Nat) (col row : Fin 3)
  | readV (p : Nat) (i : Fin 3)
  | writeV (p : Nat) (i : Fin 3)
  deriving DecidableEq, Repr

/-- The store: `mat3` objects and `vec3` objects, each named by a slot, and the
accesses performed so far, oldest first.  Two parameters of the same type alias
exactly when they name the same slot; objects in different slots, and a `mat3`
and a `vec3`, do not overlap. -/
structure Store (R : Type) where
  mats : Nat → mat3 R
  vecs : Nat → vec3 R
  trace : List Event

namespace Mem

variable {R : Type}

/-- Read `p[col][row]`. -/
def loadM (p : Nat) (col row : Fin 3) : StateM (Store R) R :=
  fun s => (s.mats p col row, { s with trace := s.trace ++ [Event.readM p col row] })

/-- Assign `p[col][row] = x`. -/
def storeM (p : Nat) (col row : Fin 3) (x : R) : StateM (Store R) Unit :=
  fun s => ((), { s with
    mats := Function.update s.mats p
      (Function.update (s.mats p) col (Function.update (s.mats p col) row x))
    trace := s.trace ++ [Event.writeM p col row] })

/-- Read `p[i]`. -/
def loadV (p : Nat) (i : Fin 3) : StateM (Store R) R :=
  fun s => (s.vecs p i, { s with trace := s.trace ++ [Event.readV p i] })

/-- Assign `p[i] = x`. -/
def storeV (p : Nat) (i : Fin 3) (x : R) : StateM (Store R) Unit :=
  fun s => ((), { s with
    vecs := Function.update s.vecs p (Function.update (s.vecs p) i x)
    trace := s.trace ++ [Event.writeV p i] })

/-- The store a program leaves when run from `s`. -/
def exec (prog : StateM (Store R) Unit) (s : Store R) : Store R :=
  (prog s).2

/-- Store-level `glm_mat3_mul` (scalar path). -/
def glm_mat3_mul [Add R] [Mul R] (m1 m2 dest : Nat) : StateM (Store R) Unit := do
  let a00 ← loadM m1 0 0; let a01 ← loadM m1 0 1; let a02 ← loadM m1 0 2
  let a10 ← loadM m1 1 0; let a11 ← loadM m1 1 1; let a12 ← loadM m1 1 2
  let a20 ← loadM m1 2 0; let a21 ← loadM m1 2 1; let a22 ← loadM m1 2 2
  let b00 ← loadM m2 0 0; let b01 ← loadM m2 0 1; let b02 ← loadM m2 0 2
  let b10 ← loadM m2 1 0; let b11 ← loadM m2 1 1; let b12 ← loadM m2 1 2
  let b20 ← loadM m2 2 0; let b21 ← loadM m2 2 1; let b22 ← loadM m2 2 2
  storeM dest 0 0 (a00 * b00 + a10 * b01 + a20 * b02)
  storeM dest 0 1 (a01 * b00 + a11 * b01 + a21 * b02)
  storeM dest 0 2 (a02 * b00 + a12 * b01 + a22 * b02)
  storeM dest 1 0 (a00 * b10 + a10 * b11 + a20 * b12)
  storeM dest 1 1 (a01 * b10 + a11 * b11 + a21 * b12)
  storeM dest 1 2 (a02 * b10 + a12 * b11 + a22 * b12)
  storeM dest 2 0 (a00 * b20 + a10 * b21 + a20 * b22)
  storeM dest 2 1 (a01 * b20 + a11 * b21 + a21 * b22)
  storeM dest 2 2 (a02 * b20 + a12 * b21 + a22 * b22)

/-- Store-level `glm_mat3_transpose_to`. -/
def glm_mat3_transpose_to (m dest : Nat) : StateM (Store R) Unit := do
  storeM dest 0 0 (← loadM m 0 0)
  storeM dest 0 1 (← loadM m 1 0)
  storeM dest 0 2 (← loadM m 2 0)
  storeM dest 1 0 (← loadM m 0 1)
  storeM dest 1 1 (← loadM m 1 1)
  storeM dest 1 2 (← loadM m 2 1)
  storeM dest 2 0 (← loadM m 0 2)
  storeM dest 2 1 (← loadM m 1 2)
  storeM dest 2 2 (← loadM m 2 2)

/-- Store-level `glm_mat3_transpose`; the local `mat3 tmp` is six locals. -/
def glm_mat3_transpose (m : Nat) : StateM (Store R) Unit := do
  let tmp01 ← loadM m 1 0
  let tmp02 ← loadM m 2 0
  let tmp10 ← loadM m 0 1
  let tmp12 ← loadM m 2 1
  let tmp20 ← loadM m 0 2
  let tmp21 ← loadM m 1 2
  storeM m 0 1 tmp01
  storeM m 0 2 tmp02
  storeM m 1 0 tmp10
  storeM m 1 2 tmp12
  storeM m 2 0 tmp20
  storeM m 2 1 tmp21

/-- Store-level `glm_mat3_mulv`. -/
def glm_mat3_mulv [Add R] [Mul R] (m v dest : Nat) : StateM (Store R) Unit := do
  storeV dest 0
    ((← loadM m 0 0) * (← loadV v 0) + (← loadM m 1 0) * (← loadV v 1)
      + (← loadM m 2 0) * (← loadV v 2))
  storeV dest 1
    ((← loadM m 0 1) * (← loadV v 0) + (← loadM m 1 1) * (← loadV v 1)
      + (← loadM m 2 1) * (← loadV v 2))
  storeV dest 2
    ((← loadM m 0 2) * (← loadV v 0) + (← loadM m 1 2) * (← loadV v 1)
      + (← loadM m 2 2) * (← loadV v 2))

/-- Modelled from the spec: the macro `glm__memcpy` is defined in `cglm.h`,
which is not among the sources.  The spec has `duplicate` copy "all 9 entries
of `source` into `dest`" without reading `dest`; the macro called with `float`
and `sizeof(mat3)` is therefore taken to copy the 9 scalars of `src` to `dest`
one after the other, in memory order. -/
def glm__memcpy (dest src : Nat) : StateM (Store R) Unit := do
  storeM dest 0 0 (← loadM src 0 0)
  storeM dest 0 1 (← loadM src 0 1)
  storeM dest 0 2 (← loadM src 0 2)
  storeM dest 1 0 (← loadM src 1 0)
  storeM dest 1 1 (← loadM src 1 1)
  storeM dest 1 2 (← loadM src 1 2)
  storeM dest 2 0 (← loadM src 2 0)
  storeM dest 2 1 (← loadM src 2 1)
  storeM dest 2 2 (← loadM src 2 2)

/-- Store-level `glm_mat3_dup`. -/
def glm_mat3_dup (mat dest : Nat) : StateM (Store R) Unit :=
  glm__memcpy dest mat

/-- The accesses performed by running `prog` from `s`, oldest first. -/
def events (prog : StateM (Store R) Unit) (s : Store R) : List Event :=
  (exec prog s).trace.drop s.trace.length

end Mem

/-- A store over the integers used to run the programs on concrete data: matrix
slot 0 holds `[[1,2,3],[4,5,6],[7,8,9]]`, slot 1 holds `[[2,1,0],[0,1,0],[0,0,1]]`,
slot 2 holds `diag(2,3,4)` and every other slot holds zeros; vector slot 0 holds
`[1,0,0]`, slot 1 holds `[1,1,1]` and every other slot holds zeros. -/
def demoStore : Store Int where
  mats := fun p =>
    if p = 0 then ![![1, 2, 3], ![4, 5, 6], ![7, 8, 9]]
    else if p = 1 then ![![2, 1, 0], ![0, 1, 0], ![0, 0, 1]]
    else if p = 2 then ![![2, 0, 0], ![0, 3, 0], ![0, 0, 4]]
    else ![![0, 0, 0], ![0, 0, 0], ![0, 0, 0]]
  vecs := fun p =>
    if p = 0 then ![1, 0, 0]
    else if p = 1 then ![1, 1, 1]
    else ![0, 0, 0]
  trace := []

/-! ## What a run leaves in the store -/

section Runs

open Mem (exec events loadM storeM loadV storeV)

variable {R : Type}

theorem exec_mul_mats [Add R] [Mul R] (s : Store R) (m1 m2 dest : Nat) :
    (exec (Mem.glm_mat3_mul m1 m2 dest) s).mats
      = Function.update s.mats dest (glm_mat3_mul (s.mats m1) (s.mats m2)) := by
  simp only [exec, Mem.glm_mat3_mul, bind, StateT.bind, loadM, storeM]
  funext q c r
  by_cases hq : q = dest
  · subst hq
    fin_cases c <;> fin_cases r <;> simp [glm_mat3_mul]
  · simp [Function.update_noteq hq]

theorem exec_mul_vecs [Add R] [Mul R] (s : Store R) (m1 m2 dest : Nat) :
    (exec (Mem.glm_mat3_mul m1 m2 dest) s).vecs = s.vecs := by
  simp only [exec, Mem.glm_mat3_mul, bind, StateT.bind, loadM, storeM]

theorem exec_transpose_to_mats (s : Store R) (m dest : Nat) (h : dest ≠ m) :
    (exec (Mem.glm_mat3_transpose_to m dest) s).mats
      = Function.update s.mats dest (glm_mat3_transpose_to (s.mats m)) := by
  simp only [exec, Mem.glm_mat3_transpose_to, bind, StateT.bind, loadM, storeM]
  funext q c r
  by_cases hq : q = dest
  · subst hq
    fin_cases c <;> fin_cases r <;>
      simp [glm_mat3_transpose_to, Function.update_noteq (Ne.symm h)]
  · simp [Function.update_noteq hq]

theorem exec_transpose_mats (s : Store R) (m : Nat) :
    (exec (Mem.glm_mat3_transpose m) s).mats
      = Function.update s.mats m (glm_mat3_transpose (s.mats m)) := by
  simp only [exec, Mem.glm_mat3_transpose, bind, StateT.bind, loadM, storeM]
  funext q c r
  by_cases hq : q = m
  · subst hq
    fin_cases c <;> fin_cases r <;> simp [glm_mat3_transpose]
  · simp [Function.update_noteq hq]

theorem events_transpose (s : Store R) (m : Nat) :
    events (Mem.glm_mat3_transpose m) s
      = [Event.readM m 1 0, Event.readM m 2 0, Event.readM m 0 1,
         Event.readM m 2 1, Event.readM m 0 2, Event.readM m 1 2,
         Event.writeM m 0 1, Event.writeM m 0 2, Event.writeM m 1 0,
         Event.writeM m 1 2, Event.writeM m 2 0, Event.writeM m 2 1] := by
  simp [events, exec, Mem.glm_mat3_transpose, bind, StateT.bind, loadM, storeM]

theorem exec_mulv_vecs [Add R] [Mul R] (s : Store R) (m v dest : Nat) (h : dest ≠ v) :
    (exec (Mem.glm_mat3_mulv m v dest) s).vecs
      = Function.update s.vecs dest (glm_mat3_mulv (s.mats m) (s.vecs v)) := by
  simp only [exec, Mem.glm_mat3_mulv, bind, StateT.bind, loadM, storeM, loadV, storeV]
  funext q i
  by_cases hq : q = dest
  · subst hq
    fin_cases i <;> simp [glm_mat3_mulv, Function.update_noteq (Ne.symm h)]
  · simp [Function.update_noteq hq]

theorem exec_mulv_mats [Add R] [Mul R] (s : Store R) (m v dest : Nat) :
    (exec (Mem.glm_mat3_mulv m v dest) s).mats = s.mats := by
  simp only [exec, Mem.glm_mat3_mulv, bind, StateT.bind, loadM, storeM, loadV, storeV]

theorem exec_dup_mats (s : Store R) (mat dest : Nat) :
    (exec (Mem.glm_mat3_dup mat dest) s).mats
      = Function.update s.mats dest (s.mats mat) := by
  simp only [exec, Mem.glm_mat3_dup, Mem.glm__memcpy, bind, StateT.bind, loadM, storeM]
  funext q c r
  by_cases hq : q = dest
  · subst hq
    by_cases hm : mat = q
    · subst hm
      fin_cases c <;> fin_cases r <;> simp
    · fin_cases c <;> fin_cases r <;> simp [Function.update_noteq hm]
  · simp [Function.update_noteq hq]

theorem transpose_to_transpose_to (a : mat3 R) :
    glm_mat3_transpose_to (glm_mat3_transpose_to a) = a := by
  funext c r
  fin_cases c <;> fin_cases r <;> rfl

theorem transpose_eq_transpose_to (a : mat3 R) :
    glm_mat3_transpose a = glm_mat3_transpose_to a := by
  funext c r
  fin_cases c <;> fin_cases r <;> rfl

theorem exec_transpose_to_vecs (s : Store R) (m dest : Nat) :
    (exec (Mem.glm_mat3_transpose_to m dest) s).vecs = s.vecs := by
  simp only [exec, Mem.glm_mat3_transpose_to, bind, StateT.bind, loadM, storeM]

theorem exec_transpose_vecs (s : Store R) (m : Nat) :
    (exec (Mem.glm_mat3_transpose m) s).vecs = s.vecs := by
  simp only [exec, Mem.glm_mat3_transpose, bind, StateT.bind, loadM, storeM]

theorem exec_dup_vecs (s : Store R) (mat dest : Nat) :
    (exec (Mem.glm_mat3_dup mat dest) s).vecs = s.vecs := by
  simp only [exec, Mem.glm_mat3_dup, Mem.glm__memcpy, bind, StateT.bind, loadM, storeM]

theorem events_mul [Add R] [Mul R] (s : Store R) (m1 m2 dest : Nat) :
    events (Mem.glm_mat3_mul m1 m2 dest) s
      = [Event.readM m1 0 0, Event.readM m1 0 1, Event.readM m1 0 2,
         Event.readM m1 1 0, Event.readM m1 1 1, Event.readM m1 1 2,
         Event.readM m1 2 0, Event.readM m1 2 1, Event.readM m1 2 2,
         Event.readM m2 0 0, Event.readM m2 0 1, Event.readM m2 0 2,
         Event.readM m2 1 0, Event.readM m2 1 1, Event.readM m2 1 2,
         Event.readM m2 2 0, Event.readM m2 2 1, Event.readM m2 2 2,
         Event.writeM dest 0 0, Event.writeM dest 0 1, Event.writeM dest 0 2,
         Event.writeM dest 1 0, Event.writeM dest 1 1, Event.writeM dest 1 2,
         Event.writeM dest 2 0, Event.writeM dest 2 1, Event.writeM dest 2 2] := by
  simp [events, exec, Mem.glm_mat3_mul, bind, StateT.bind, loadM, storeM]

theorem events_transpose_to (s : Store R) (m dest : Nat) :
    events (Mem.glm_mat3_transpose_to m dest) s
      = [Event.readM m 0 0, Event.writeM dest 0 0, Event.readM m 1 0, Event.writeM dest 0 1,
         Event.readM m 2 0, Event.writeM dest 0 2, Event.readM m 0 1, Event.writeM dest 1 0,
         Event.readM m 1 1, Event.writeM dest 1 1, Event.readM m 2 1, Event.writeM dest 1 2,
         Event.readM m 0 2, Event.writeM dest 2 0, Event.readM m 1 2, Event.writeM dest 2 1,
         Event.readM m 2 2, Event.writeM dest 2 2] := by
  simp [events, exec, Mem.glm_mat3_transpose_to, bind, StateT.bind, loadM, storeM]

theorem events_dup (s : Store R) (mat dest : Nat) :
    events (Mem.glm_mat3_dup mat dest) s
      = [Event.readM mat 0 0, Event.writeM dest 0 0, Event.readM mat 0 1, Event.writeM dest 0 1,
         Event.readM mat 0 2, Event.writeM dest 0 2, Event.readM mat 1 0, Event.writeM dest 1 0,
         Event.readM mat 1 1, Event.writeM dest 1 1, Event.readM mat 1 2, Event.writeM dest 1 2,
         Event.readM mat 2 0, Event.writeM dest 2 0, Event.readM mat 2 1, Event.writeM dest 2 1,
         Event.readM mat 2 2, Event.writeM dest 2 2] := by
  simp [events, exec, Mem.glm_mat3_dup, Mem.glm__memcpy, bind, StateT.bind, loadM, storeM]

theorem events_mulv [Add R] [Mul R] (s : Store R) (m v dest : Nat) :
    events (Mem.glm_mat3_mulv m v dest) s
      = [Event.readM m 0 0, Event.readV v 0, Event.readM m 1 0, Event.readV v 1,
         Event.readM m 2 0, Event.readV v 2, Event.writeV dest 0,
         Event.readM m 0 1, Event.readV v 0, Event.readM m 1 1, Event.readV v 1,
         Event.readM m 2 1, Event.readV v 2, Event.writeV dest 1,
         Event.readM m 0 2, Event.readV v 0, Event.readM m 1 2, Event.readV v 1,
         Event.readM m 2 2, Event.readV v 2, Event.writeV dest 2] := by
  simp [events, exec, Mem.glm_mat3_mulv, bind, StateT.bind, loadM, storeM, loadV, storeV]

theorem exec_mulv_in_place_vecs [Add R] [Mul R] (s : Store R) (m v : Nat) (i : Fin 3) :
    (exec (Mem.glm_mat3_mulv m v v) s).vecs v i
      = ![s.mats m 0 0 * s.vecs v 0 + s.mats m 1 0 * s.vecs v 1 + s.mats m 2 0 * s.vecs v 2,
          s.mats m 0 1 * (s.mats m 0 0 * s.vecs v 0 + s.mats m 1 0 * s.vecs v 1
              + s.mats m 2 0 * s.vecs v 2)
            + s.mats m 1 1 * s.vecs v 1 + s.mats m 2 1 * s.vecs v 2,
          s.mats m 0 2 * (s.mats m 0 0 * s.vecs v 0 + s.mats m 1 0 * s.vecs v 1
              + s.mats m 2 0 * s.vecs v 2)
            + s.mats m 1 2 * (s.mats m 0 1 * (s.mats m 0 0 * s.vecs v 0
                + s.mats m 1 0 * s.vecs v 1 + s.mats m 2 0 * s.vecs v 2)
              + s.mats m 1 1 * s.vecs v 1 + s.mats m 2 1 * s.vecs v 2)
            + s.mats m 2 2 * s.vecs v 2] i := by
  simp only [exec, Mem.glm_mat3_mulv, bind, StateT.bind, loadM, storeM, loadV, storeV]
  fin_cases i <;> simp

end Runs

/-! ## The specification -/

section Claims

open Mem (exec events)

variable {R : Type}

/-- C1: the scalar path of `glm_mat3_mul` stores the standard matrix product in
column-major layout: for every `col` and `row`,
`dest[col][row] = m1[0][row]*m2[col][0] + m1[1][row]*m2[col][1] + m1[2][row]*m2[col][2]`. -/
theorem glm_mat3_mul_entry [Add R] [Mul R] (m1 m2 : mat3 R) (col row : Fin 3) :
    glm_mat3_mul m1 m2 col row
      = m1 0 row * m2 col 0 + m1 1 row * m2 col 1 + m1 2 row * m2 col 2 := by
  fin_cases col <;> fin_cases row <;> rfl

/-- C2: run on a store, with `m1`, `m2` and `dest` naming slots that may
coincide in any way, `glm_mat3_mul` leaves in `dest` the product of the
matrices that `m1` and `m2` held before the call; in particular
`glm_mat3_mul(A, A, A)` leaves in `A` what `glm_mat3_mul(A, A, C)` leaves in
any `C`. -/
theorem glm_mat3_mul_aliasing [Add R] [Mul R] (s : Store R) (m1 m2 dest : Nat) :
    (∀ col row : Fin 3,
      (exec (Mem.glm_mat3_mul m1 m2 dest) s).mats dest col row
        = s.mats m1 0 row * s.mats m2 col 0 + s.mats m1 1 row * s.mats m2 col 1
          + s.mats m1 2 row * s.mats m2 col 2)
    ∧ (∀ a c : Nat,
      (exec (Mem.glm_mat3_mul a a a) s).mats a
        = (exec (Mem.glm_mat3_mul a a c) s).mats c) := by
  refine ⟨fun col row => ?_, fun a c => ?_⟩
  · rw [exec_mul_mats, Function.update_same]
    fin_cases col <;> fin_cases row <;> rfl
  · rw [exec_mul_mats, exec_mul_mats, Function.update_same, Function.update_same]

/-- C3: `glm_mat3_mulv` called with a `dest` that is not the storage of `v`
stores the product of `m` with the column vector `v`:
`dest[row] = m[0][row]*v[0] + m[1][row]*v[1] + m[2][row]*v[2]` for every `row`. -/
theorem glm_mat3_mulv_entry [Add R] [Mul R] (s : Store R) (m v dest : Nat)
    (h : dest ≠ v) (row : Fin 3) :
    (exec (Mem.glm_mat3_mulv m v dest) s).vecs dest row
      = s.mats m 0 row * s.vecs v 0 + s.mats m 1 row * s.vecs v 1
        + s.mats m 2 row * s.vecs v 2 := by
  rw [exec_mulv_vecs s m v dest h, Function.update_same]
  fin_cases row <;> rfl

/-- Witness of C3: `[[1,2,3],[4,5,6],[7,8,9]]` times `[1,1,1]`, stored in a
vector of its own, has second component `2 + 5 + 8`. -/
theorem glm_mat3_mulv_entry_witness :
    (2 : Nat) ≠ 1 ∧ (exec (Mem.glm_mat3_mulv 0 1 2) demoStore).vecs 2 1 = 15 :=
  ⟨by decide, (glm_mat3_mulv_entry demoStore 0 1 2 (by decide) 1).trans (by decide)⟩

/-- C4 (fails on the code): with `M = [[2,1,0],[0,1,0],[0,0,1]]` and
`v = [1,0,0]`, `glm_mat3_mulv(M, v, v)` leaves `[2,2,0]` in `v`, whereas
`glm_mat3_mulv(M, v, w)` stores `[2,1,0]` in an independent `w`: the second
assignment reads the `v[0]` that the first one has overwritten. -/
theorem glm_mat3_mulv_in_place_diverges :
    (exec (Mem.glm_mat3_mulv 1 0 0) demoStore).vecs 0 = ![2, 2, 0]
    ∧ (exec (Mem.glm_mat3_mulv 1 0 3) demoStore).vecs 3 = ![2, 1, 0]
    ∧ (exec (Mem.glm_mat3_mulv 1 0 0) demoStore).vecs 0
        ≠ (exec (Mem.glm_mat3_mulv 1 0 3) demoStore).vecs 3 := by
  decide

/-- C5: multiplying by `GLM_MAT3_IDENTITY` on either side gives the other
factor back, entry by entry: `glm_mat3_mul(A, I) = A` and
`glm_mat3_mul(I, A) = A`. -/
theorem glm_mat3_mul_identity [CommRing R] (a : mat3 R) :
    glm_mat3_mul a GLM_MAT3_IDENTITY = a ∧ glm_mat3_mul GLM_MAT3_IDENTITY a = a := by
  constructor <;> funext col row <;> fin_cases col <;> fin_cases row <;>
    simp [glm_mat3_mul, GLM_MAT3_IDENTITY, Matrix.vecHead, Matrix.vecTail]

/-- C6: `glm_mat3_transpose_to` called with a `dest` distinct from `m` stores
the transpose, `dest[col][row] = m[row][col]`, and leaves `m` as it was; on
`[[1,2,3],[4,5,6],[7,8,9]]` it gives `[[1,4,7],[2,5,8],[3,6,9]]`. -/
theorem glm_mat3_transpose_to_spec (s : Store R) (m dest : Nat) (h : dest ≠ m) :
    (∀ col row : Fin 3,
      (exec (Mem.glm_mat3_transpose_to m dest) s).mats dest col row = s.mats m row col)
    ∧ (exec (Mem.glm_mat3_transpose_to m dest) s).mats m = s.mats m
    ∧ glm_mat3_transpose_to (![![1, 2, 3], ![4, 5, 6], ![7, 8, 9]] : mat3 Int)
        = ![![1, 4, 7], ![2, 5, 8], ![3, 6, 9]] := by
  refine ⟨fun col row => ?_, ?_, by decide⟩
  · rw [exec_transpose_to_mats s m dest h, Function.update_same]
    fin_cases col <;> fin_cases row <;> rfl
  · rw [exec_transpose_to_mats s m dest h, Function.update_noteq (Ne.symm h)]

/-- Witness of C6: slot 0 holds `[[1,2,3],[4,5,6],[7,8,9]]`; transposing it into
slot 3 stores `[[1,4,7],[2,5,8],[3,6,9]]` there and leaves slot 0 alone. -/
theorem glm_mat3_transpose_to_spec_witness :
    (3 : Nat) ≠ 0
    ∧ (exec (Mem.glm_mat3_transpose_to 0 3) demoStore).mats 3
        = ![![1, 4, 7], ![2, 5, 8], ![3, 6, 9]]
    ∧ (exec (Mem.glm_mat3_transpose_to 0 3) demoStore).mats 0
        = ![![1, 2, 3], ![4, 5, 6], ![7, 8, 9]] := by
  have h := glm_mat3_transpose_to_spec demoStore 0 3 (by decide)
  refine ⟨by decide, ?_, h.2.1.trans (by decide)⟩
  funext col row
  exact (h.1 col row).trans (by revert col row; decide)

/-- C7: transposition is an involution in both forms: `glm_mat3_transpose`
applied twice to `A` leaves `A` as it was, and `glm_mat3_transpose_to` from `A`
into a distinct `B` followed by `glm_mat3_transpose_to` from `B` into a distinct
`C` leaves in `C` the original `A`. -/
theorem glm_mat3_transpose_involution (s : Store R) :
    (∀ a : Nat,
      (exec (Mem.glm_mat3_transpose a) (exec (Mem.glm_mat3_transpose a) s)).mats a
        = s.mats a)
    ∧ (∀ a b c : Nat, b ≠ a → c ≠ b →
      (exec (Mem.glm_mat3_transpose_to b c) (exec (Mem.glm_mat3_transpose_to a b) s)).mats c
        = s.mats a) := by
  refine ⟨fun a => ?_, fun a b c hba hcb => ?_⟩
  · rw [exec_transpose_mats, Function.update_same, exec_transpose_mats,
      Function.update_same, transpose_eq_transpose_to, transpose_eq_transpose_to,
      transpose_to_transpose_to]
  · rw [exec_transpose_to_mats _ b c hcb, Function.update_same,
      exec_transpose_to_mats s a b hba, Function.update_same, transpose_to_transpose_to]

/-- Witness of C7: from slot 0 into slot 3 and from slot 3 into slot 4. -/
theorem glm_mat3_transpose_involution_witness :
    (3 : Nat) ≠ 0 ∧ (4 : Nat) ≠ 3
    ∧ (exec (Mem.glm_mat3_transpose_to 3 4)
        (exec (Mem.glm_mat3_transpose_to 0 3) demoStore)).mats 4
        = ![![1, 2, 3], ![4, 5, 6], ![7, 8, 9]] :=
  ⟨by decide, by decide,
    ((glm_mat3_transpose_involution demoStore).2 0 3 4 (by decide) (by decide)).trans
      (by decide)⟩

/-- C8: `glm_mat3_transpose` leaves in `m` exactly the matrix that
`glm_mat3_transpose_to` writes from the original `m` into a distinct
destination, `m_after[col][row] = m_before[row][col]`; its accesses are the six
reads of the off-diagonal entries followed by the six writes of the
off-diagonal entries, so every read precedes every write and no diagonal entry
`m[i][i]` is written. -/
theorem glm_mat3_transpose_refines_transpose_to (s : Store R) (m : Nat) :
    (∀ dest : Nat, dest ≠ m →
      (exec (Mem.glm_mat3_transpose m) s).mats m
        = (exec (Mem.glm_mat3_transpose_to m dest) s).mats dest)
    ∧ (∀ col row : Fin 3,
      (exec (Mem.glm_mat3_transpose m) s).mats m col row = s.mats m row col)
    ∧ events (Mem.glm_mat3_transpose m) s
        = [Event.readM m 1 0, Event.readM m 2 0, Event.readM m 0 1,
           Event.readM m 2 1, Event.readM m 0 2, Event.readM m 1 2]
          ++ [Event.writeM m 0 1, Event.writeM m 0 2, Event.writeM m 1 0,
              Event.writeM m 1 2, Event.writeM m 2 0, Event.writeM m 2 1]
    ∧ (∀ i : Fin 3, Event.writeM m i i ∉ events (Mem.glm_mat3_transpose m) s) := by
  refine ⟨fun dest h => ?_, fun col row => ?_, ?_, fun i => ?_⟩
  · rw [exec_transpose_mats, Function.update_same, exec_transpose_to_mats s m dest h,
      Function.update_same, transpose_eq_transpose_to]
  · rw [exec_transpose_mats, Function.update_same]
    fin_cases col <;> fin_cases row <;> rfl
  · rw [events_transpose]
    rfl
  · rw [events_transpose]
    fin_cases i <;> simp

/-- Witness of C8: transposing slot 0 in place against transposing it into
slot 3. -/
theorem glm_mat3_transpose_refines_transpose_to_witness :
    (3 : Nat) ≠ 0
    ∧ (exec (Mem.glm_mat3_transpose 0) demoStore).mats 0
        = (exec (Mem.glm_mat3_transpose_to 0 3) demoStore).mats 3 :=
  ⟨by decide, (glm_mat3_transpose_refines_transpose_to demoStore 0).1 3 (by decide)⟩

/-- C9 (fails on the code): with `m = [[1,2,3],[4,5,6],[7,8,9]]`,
`glm_mat3_transpose_to(m, m)` leaves `[[1,4,7],[4,5,8],[7,8,9]]` in `m`, whereas
`glm_mat3_transpose(m)` leaves the transpose `[[1,4,7],[2,5,8],[3,6,9]]`: the
assignments to `dest[1][0]`, `dest[2][0]` and `dest[2][1]` read entries that
earlier assignments have overwritten. -/
theorem glm_mat3_transpose_to_in_place_diverges :
    (exec (Mem.glm_mat3_transpose_to 0 0) demoStore).mats 0
        = ![![1, 4, 7], ![4, 5, 8], ![7, 8, 9]]
    ∧ (exec (Mem.glm_mat3_transpose 0) demoStore).mats 0
        = ![![1, 4, 7], ![2, 5, 8], ![3, 6, 9]]
    ∧ (exec (Mem.glm_mat3_transpose_to 0 0) demoStore).mats 0
        ≠ (exec (Mem.glm_mat3_transpose 0) demoStore).mats 0 := by
  decide

/-- C10: `glm_mat3_dup` leaves `dest` equal to `mat` in all 9 entries and leaves
`mat` unchanged; what it leaves in a `dest` other than `mat` is the same
whatever `dest` held before; and with `mat` and `dest` the same storage every
matrix of the store is as before. -/
theorem glm_mat3_dup_spec (s : Store R) (mat dest : Nat) :
    (∀ col row : Fin 3,
      (exec (Mem.glm_mat3_dup mat dest) s).mats dest col row = s.mats mat col row)
    ∧ (exec (Mem.glm_mat3_dup mat dest) s).mats mat = s.mats mat
    ∧ (∀ d : mat3 R, dest ≠ mat →
      (exec (Mem.glm_mat3_dup mat dest)
          { s with mats := Function.update s.mats dest d }).mats dest
        = (exec (Mem.glm_mat3_dup mat dest) s).mats dest)
    ∧ (exec (Mem.glm_mat3_dup mat mat) s).mats = s.mats := by
  refine ⟨fun col row => ?_, ?_, fun d h => ?_, ?_⟩
  · rw [exec_dup_mats, Function.update_same]
  · rw [exec_dup_mats]
    by_cases h : mat = dest
    · subst h
      rw [Function.update_same]
    · rw [Function.update_noteq h]
  · rw [exec_dup_mats, exec_dup_mats, Function.update_same, Function.update_same]
    exact Function.update_noteq (Ne.symm h) d s.mats
  · rw [exec_dup_mats, Function.update_eq_self]

/-- Witness of C10: copying slot 0 into slot 3, once from the store as it is and
once after slot 3 has been filled with `diag(2,3,4)`. -/
theorem glm_mat3_dup_spec_witness :
    (3 : Nat) ≠ 0
    ∧ (exec (Mem.glm_mat3_dup 0 3)
          { demoStore with
            mats := Function.update demoStore.mats 3 ![![2, 0, 0], ![0, 3, 0], ![0, 0, 4]] }).mats 3
        = (exec (Mem.glm_mat3_dup 0 3) demoStore).mats 3 :=
  ⟨by decide,
    (glm_mat3_dup_spec demoStore 0 3).2.2.1 ![![2, 0, 0], ![0, 3, 0], ![0, 0, 4]] (by decide)⟩

/-- C11: with `M = [[2,0,0],[0,3,0],[0,0,4]]` and `v = [1,1,1]`,
`glm_mat3_mulv(M, v)` stores `[2,3,4]` and `glm_mat3_mul(M, M)` stores
`[[4,0,0],[0,9,0],[0,0,16]]`, both on values and run on the store (matrix
slot 2 holds `M`, vector slot 1 holds `v`, slot 3 is the destination). -/
theorem glm_mat3_concrete_scenario :
    glm_mat3_mulv (![![2, 0, 0], ![0, 3, 0], ![0, 0, 4]] : mat3 Int) ![1, 1, 1]
        = ![2, 3, 4]
    ∧ glm_mat3_mul (![![2, 0, 0], ![0, 3, 0], ![0, 0, 4]] : mat3 Int)
          ![![2, 0, 0], ![0, 3, 0], ![0, 0, 4]]
        = ![![4, 0, 0], ![0, 9, 0], ![0, 0, 16]]
    ∧ (exec (Mem.glm_mat3_mulv 2 1 3) demoStore).vecs 3 = ![2, 3, 4]
    ∧ (exec (Mem.glm_mat3_mul 2 2 3) demoStore).mats 3
        = ![![4, 0, 0], ![0, 9, 0], ![0, 0, 16]] := by
  decide

/-- C13: with `dest` a slot of its own, each of `glm_mat3_dup`, `glm_mat3_mul`,
`glm_mat3_transpose_to` and `glm_mat3_mulv` leaves every matrix and vector
other than `dest` as it was, writes every entry of `dest` (9 for a matrix, 3
for a vector), and leaves in `dest` a value that is the same whatever `dest`
held before; `glm_mat3_transpose` leaves every matrix other than its argument
and every vector as it was. -/
theorem glm_mat3_frame [Add R] [Mul R] (s : Store R) :
    (∀ mat dest : Nat, dest ≠ mat →
      (∀ q, q ≠ dest → (exec (Mem.glm_mat3_dup mat dest) s).mats q = s.mats q)
      ∧ (exec (Mem.glm_mat3_dup mat dest) s).vecs = s.vecs
      ∧ (∀ col row : Fin 3, Event.writeM dest col row ∈ events (Mem.glm_mat3_dup mat dest) s)
      ∧ (∀ d : mat3 R,
          (exec (Mem.glm_mat3_dup mat dest)
              { s with mats := Function.update s.mats dest d }).mats dest
            = (exec (Mem.glm_mat3_dup mat dest) s).mats dest))
    ∧ (∀ m1 m2 dest : Nat, dest ≠ m1 → dest ≠ m2 →
      (∀ q, q ≠ dest → (exec (Mem.glm_mat3_mul m1 m2 dest) s).mats q = s.mats q)
      ∧ (exec (Mem.glm_mat3_mul m1 m2 dest) s).vecs = s.vecs
      ∧ (∀ col row : Fin 3,
          Event.writeM dest col row ∈ events (Mem.glm_mat3_mul m1 m2 dest) s)
      ∧ (∀ d : mat3 R,
          (exec (Mem.glm_mat3_mul m1 m2 dest)
              { s with mats := Function.update s.mats dest d }).mats dest
            = (exec (Mem.glm_mat3_mul m1 m2 dest) s).mats dest))
    ∧ (∀ m dest : Nat, dest ≠ m →
      (∀ q, q ≠ dest → (exec (Mem.glm_mat3_transpose_to m dest) s).mats q = s.mats q)
      ∧ (exec (Mem.glm_mat3_transpose_to m dest) s).vecs = s.vecs
      ∧ (∀ col row : Fin 3,
          Event.writeM dest col row ∈ events (Mem.glm_mat3_transpose_to m dest) s)
      ∧ (∀ d : mat3 R,
          (exec (Mem.glm_mat3_transpose_to m dest)
              { s with mats := Function.update s.mats dest d }).mats dest
            = (exec (Mem.glm_mat3_transpose_to m dest) s).mats dest))
    ∧ (∀ m v dest : Nat, dest ≠ v →
      (exec (Mem.glm_mat3_mulv m v dest) s).mats = s.mats
      ∧ (∀ q, q ≠ dest → (exec (Mem.glm_mat3_mulv m v dest) s).vecs q = s.vecs q)
      ∧ (∀ i : Fin 3, Event.writeV dest i ∈ events (Mem.glm_mat3_mulv m v dest) s)
      ∧ (∀ d : vec3 R,
          (exec (Mem.glm_mat3_mulv m v dest)
              { s with vecs := Function.update s.vecs dest d }).vecs dest
            = (exec (Mem.glm_mat3_mulv m v dest) s).vecs dest))
    ∧ (∀ m : Nat,
      (∀ q, q ≠ m → (exec (Mem.glm_mat3_transpose m) s).mats q = s.mats q)
      ∧ (exec (Mem.glm_mat3_transpose m) s).vecs = s.vecs) := by
  refine ⟨fun mat dest h => ⟨fun q hq => ?_, exec_dup_vecs s mat dest, fun col row => ?_,
      fun d => ?_⟩,
    fun m1 m2 dest h1 h2 => ⟨fun q hq => ?_, exec_mul_vecs s m1 m2 dest, fun col row => ?_,
      fun d => ?_⟩,
    fun m dest h => ⟨fun q hq => ?_, exec_transpose_to_vecs s m dest, fun col row => ?_,
      fun d => ?_⟩,
    fun m v dest h => ⟨exec_mulv_mats s m v dest, fun q hq => ?_, fun i => ?_, fun d => ?_⟩,
    fun m => ⟨fun q hq => ?_, exec_transpose_vecs s m⟩⟩
  · rw [exec_dup_mats, Function.update_noteq hq]
  · rw [events_dup]
    fin_cases col <;> fin_cases row <;> simp
  · rw [exec_dup_mats, exec_dup_mats, Function.update_same, Function.update_same]
    exact Function.update_noteq (Ne.symm h) d s.mats
  · rw [exec_mul_mats, Function.update_noteq hq]
  · rw [events_mul]
    fin_cases col <;> fin_cases row <;> simp
  · rw [exec_mul_mats, exec_mul_mats, Function.update_same, Function.update_same]
    show glm_mat3_mul (Function.update s.mats dest d m1) (Function.update s.mats dest d m2) = _
    rw [Function.update_noteq (Ne.symm h1), Function.update_noteq (Ne.symm h2)]
  · rw [exec_transpose_to_mats s m dest h, Function.update_noteq hq]
  · rw [events_transpose_to]
    fin_cases col <;> fin_cases row <;> simp
  · rw [exec_transpose_to_mats _ m dest h, exec_transpose_to_mats s m dest h,
      Function.update_same, Function.update_same]
    show glm_mat3_transpose_to (Function.update s.mats dest d m) = _
    rw [Function.update_noteq (Ne.symm h)]
  · rw [exec_mulv_vecs s m v dest h, Function.update_noteq hq]
  · rw [events_mulv]
    fin_cases i <;> simp
  · rw [exec_mulv_vecs _ m v dest h, exec_mulv_vecs s m v dest h,
      Function.update_same, Function.update_same]
    show glm_mat3_mulv (s.mats m) (Function.update s.vecs dest d v) = _
    rw [Function.update_noteq (Ne.symm h)]
  · rw [exec_transpose_mats, Function.update_noteq hq]

/-- Witness of C13: `glm_mat3_mul` from slots 0 and 1 into slot 3 leaves slot 0
and the vectors as they were and writes `dest[2][2]`. -/
theorem glm_mat3_frame_witness :
    (3 : Nat) ≠ 0 ∧ (3 : Nat) ≠ 1
    ∧ (exec (Mem.glm_mat3_mul 0 1 3) demoStore).mats 0 = demoStore.mats 0
    ∧ (exec (Mem.glm_mat3_mul 0 1 3) demoStore).vecs = demoStore.vecs
    ∧ Event.writeM 3 2 2 ∈ events (Mem.glm_mat3_mul 0 1 3) demoStore := by
  have h := (glm_mat3_frame demoStore).2.1 0 1 3 (by decide) (by decide)
  exact ⟨by decide, by decide, h.1 0 (by decide), h.2.1, h.2.2.1 2 2⟩

/-- C14: for `glm_mat3_mulv` run in place (`dest` is the storage of `v`),
component 0 of the result equals component 0 of the result stored in an
independent `w`; and when `m[0][1] = m[0][2] = m[1][2] = 0` all three
components equal the out-of-place result. -/
theorem glm_mat3_mulv_in_place_char [CommRing R] (s : Store R) (m v w : Nat)
    (hw : w ≠ v) :
    (exec (Mem.glm_mat3_mulv m v v) s).vecs v 0
        = (exec (Mem.glm_mat3_mulv m v w) s).vecs w 0
    ∧ (s.mats m 0 1 = 0 → s.mats m 0 2 = 0 → s.mats m 1 2 = 0 →
        (exec (Mem.glm_mat3_mulv m v v) s).vecs v
          = (exec (Mem.glm_mat3_mulv m v w) s).vecs w) := by
  refine ⟨?_, fun h01 h02 h12 => ?_⟩
  · rw [exec_mulv_in_place_vecs, exec_mulv_vecs s m v w hw, Function.update_same]
    rfl
  · funext i
    rw [exec_mulv_in_place_vecs, exec_mulv_vecs s m v w hw, Function.update_same]
    fin_cases i <;> simp [glm_mat3_mulv, h01, h02, h12]

/-- Witness of C14: `diag(2,3,4)` (matrix slot 2) applied to `[1,1,1]` (vector
slot 1) in place and into vector slot 3. -/
theorem glm_mat3_mulv_in_place_char_witness :
    (3 : Nat) ≠ 1
    ∧ demoStore.mats 2 0 1 = 0 ∧ demoStore.mats 2 0 2 = 0 ∧ demoStore.mats 2 1 2 = 0
    ∧ (exec (Mem.glm_mat3_mulv 2 1 1) demoStore).vecs 1
        = (exec (Mem.glm_mat3_mulv 2 1 3) demoStore).vecs 3 :=
  ⟨by decide, by decide, by decide, by decide,
    (glm_mat3_mulv_in_place_char demoStore 2 1 3 (by decide)).2
      (by decide) (by decide) (by decide)⟩

/-- C15: column `c` of the matrix stored by `glm_mat3_mul(A, B)` is the vector
stored by `glm_mat3_mulv(A, B[c])`, component by component; the two sides are
the same expression, so the equality needs no law of `+` or `*` (same terms,
same order of summation). -/
theorem glm_mat3_mul_col_eq_mulv [Add R] [Mul R] (a b : mat3 R) (c : Fin 3) :
    glm_mat3_mul a b c = glm_mat3_mulv a (b c)
    ∧ (∀ row : Fin 3,
        glm_mat3_mul a b c row
          = a 0 row * b c 0 + a 1 row * b c 1 + a 2 row * b c 2
        ∧ glm_mat3_mulv a (b c) row
          = a 0 row * b c 0 + a 1 row * b c 1 + a 2 row * b c 2) := by
  refine ⟨?_, fun row => ⟨?_, ?_⟩⟩
  · fin_cases c <;> rfl
  · fin_cases c <;> fin_cases row <;> rfl
  · fin_cases row <;> rfl

/-- C16: transposition reverses products over commutative exact scalars:
`transpose(glm_mat3_mul(A, B)) = glm_mat3_mul(transpose(B), transpose(A))`,
with `transpose` taken by `glm_mat3_transpose_to` and likewise by
`glm_mat3_transpose`. -/
theorem glm_mat3_transpose_mul [CommRing R] (a b : mat3 R) :
    glm_mat3_transpose_to (glm_mat3_mul a b)
        = glm_mat3_mul (glm_mat3_transpose_to b) (glm_mat3_transpose_to a)
    ∧ glm_mat3_transpose (glm_mat3_mul a b)
        = glm_mat3_mul (glm_mat3_transpose b) (glm_mat3_transpose a) := by
  have key : glm_mat3_transpose_to (glm_mat3_mul a b)
      = glm_mat3_mul (glm_mat3_transpose_to b) (glm_mat3_transpose_to a) := by
    funext col row
    fin_cases col <;> fin_cases row <;>
      simp [glm_mat3_mul, glm_mat3_transpose_to] <;> ring
  refine ⟨key, ?_⟩
  rw [transpose_eq_transpose_to, transpose_eq_transpose_to, transpose_eq_transpose_to]
  exact key

/-- C17: `glm_mat3_mul` is associative over a commutative ring:
`glm_mat3_mul(glm_mat3_mul(A, B), C) = glm_mat3_mul(A, glm_mat3_mul(B, C))`,
entry by entry. -/
theorem glm_mat3_mul_assoc [CommRing R] (a b c : mat3 R) :
    glm_mat3_mul (glm_mat3_mul a b) c = glm_mat3_mul a (glm_mat3_mul b c) := by
  funext col row
  fin_cases col <;> fin_cases row <;> simp [glm_mat3_mul] <;> ring

/-- C18: the matrix product is the composition of matrix-vector products,
`glm_mat3_mulv(glm_mat3_mul(A, B), v) = glm_mat3_mulv(A, glm_mat3_mulv(B, v))`
component by component, and `glm_mat3_mulv(GLM_MAT3_IDENTITY, v) = v`. -/
theorem glm_mat3_mulv_mul [CommRing R] (a b : mat3 R) (v : vec3 R) :
    glm_mat3_mulv (glm_mat3_mul a b) v = glm_mat3_mulv a (glm_mat3_mulv b v)
    ∧ glm_mat3_mulv GLM_MAT3_IDENTITY v = v := by
  constructor
  · funext i
    fin_cases i <;> simp [glm_mat3_mul, glm_mat3_mulv] <;> ring
  · funext i
    fin_cases i <;>
      simp [glm_mat3_mulv, GLM_MAT3_IDENTITY, Matrix.vecHead, Matrix.vecTail]

end Claims
